import Mathlib

/-!
Shallow embedding of the SDS011 driver's protocol layer
(`go/sds011/sds011.go`): frame structures, checksum validation, request
construction, the reply matcher, and the sensor-session operations.
Bytes are modelled as `Nat` with explicit `% 256` where the Go code wraps.
Go panics in payload accessors are modelled as `none` of an `Option`
result. Float64 measurement values are modelled in `ℚ`; the concrete
values appearing in the claims (multiples of one tenth whose raw values
are divisible by 10, such as 34.0) are exactly representable in float64,
so the rational model is faithful for them.
-/

namespace SDS011

/-- Command byte constants (`command` in the source). -/
def commandReportMode : Nat := 2

def commandQuery : Nat := 4

def commandDeviceID : Nat := 5

def commandWorkState : Nat := 6

def commandFirmware : Nat := 7

def commandCycle : Nat := 8

/-- Mode byte constants (`mode` in the source). -/
def modeGet : Nat := 0

def modeSet : Nat := 1

def reportModeActive : Nat := 0

def reportModeQuery : Nat := 1

def workStateSleeping : Nat := 0

def workStateMeasuring : Nat := 1

/-- The 10-byte response frame (`response` struct in the source):
header, discriminator (`Command`), 6 data bytes, checksum, tail. -/
structure response where
  Header : Nat
  Command : Nat
  d0 : Nat
  d1 : Nat
  d2 : Nat
  d3 : Nat
  d4 : Nat
  d5 : Nat
  CheckSum : Nat
  Tail : Nat
  deriving Repr, DecidableEq

/-- `response.IsReply`: the discriminator byte is 0xC5 (= 197). -/
def response.IsReply (r : response) : Bool :=
  r.Command == 197

/-- Sum of the six payload bytes, as the Go byte-wrapping loop computes
it (`IsCorrect`'s accumulator), reduced mod 256. -/
def response.dataSum (r : response) : Nat :=
  (r.d0 + r.d1 + r.d2 + r.d3 + r.d4 + r.d5) % 256

/-- `response.IsCorrect`: true iff the wrapped sum of the six payload
bytes equals the checksum byte. (The source returns `nil` vs an error;
we model it as the Bool deciding which branch is taken.) -/
def response.IsCorrect (r : response) : Bool :=
  r.dataSum == r.CheckSum

/-- Errors produced by `Sensor.receive`. -/
inductive RecvError where
  | transport : RecvError
  | checksum : RecvError
  deriving Repr, DecidableEq

/-- The `binary.Read` step of `Sensor.receive`: exactly 10 bytes fill the
`response` struct field by field in declaration order; anything else is
a transport-level read failure. -/
def parseResponse (bs : List Nat) : Option response :=
  match bs with
  | [h, c, d0, d1, d2, d3, d4, d5, ck, t] =>
      some ⟨h, c, d0, d1, d2, d3, d4, d5, ck, t⟩
  | _ => none

/-- `Sensor.receive` applied to one raw frame: read the 10 bytes, then
validate with `IsCorrect`. The source checks nothing else. -/
def receiveBytes (bs : List Nat) : Except RecvError response :=
  match parseResponse bs with
  | none => Except.error RecvError.transport
  | some r => if r.IsCorrect then Except.ok r else Except.error RecvError.checksum

/-- The 19-byte request frame (`request` struct in the source). `Data`
is the 11-byte payload, `DeviceID` the 2-byte target id. -/
structure request where
  Header : Nat
  SendMarker : Nat
  Command : Nat
  Mode : Nat
  Data : List Nat
  DeviceID : List Nat
  CheckSum : Nat
  Tail : Nat
  deriving Repr, DecidableEq

/-- `makeRequest`: header 0xAA, marker 0xB4, payload byte 0 = value and
the other 10 payload bytes zero, broadcast device id 0xFF 0xFF, checksum
= (command + mode + sum payload + sum device id) mod 256, tail 0xAB. -/
def makeRequest (cmd mod value : Nat) : request :=
  let data : List Nat := [value, 0, 0, 0, 0, 0, 0, 0, 0, 0, 0]
  let deviceID : List Nat := [255, 255]
  { Header := 170
    SendMarker := 180
    Command := cmd
    Mode := mod
    Data := data
    DeviceID := deviceID
    CheckSum := (cmd + mod + data.sum + deviceID.sum) % 256
    Tail := 171 }

/-- `binary.Write` of a `request`: the struct fields serialized in
declaration order give the 19 wire bytes. -/
def requestBytes (r : request) : List Nat :=
  [r.Header, r.SendMarker, r.Command, r.Mode] ++ r.Data ++ r.DeviceID ++ [r.CheckSum, r.Tail]

/-- Modelled from the spec: the repository contains no request decoder;
§8 of the spec posits `decodeRequestBytes` as the inverse used in the
round-trip property. Following the spec's frame layout, it reads a
19-byte frame, checks header 0xAA, send marker 0xB4, tail 0xAB, and
that the checksum byte equals (command + mode + sum payload + sum
device id) mod 256, and returns the (command, mode, value) triple where
value is payload byte 0. -/
def decodeRequestBytes (bs : List Nat) : Option (Nat × Nat × Nat) :=
  match bs with
  | [h, sm, c, m, p0, p1, p2, p3, p4, p5, p6, p7, p8, p9, p10, i0, i1, ck, t] =>
      if h = 170 ∧ sm = 180 ∧ t = 171 ∧
          ck = (c + m + (p0 + p1 + p2 + p3 + p4 + p5 + p6 + p7 + p8 + p9 + p10) + (i0 + i1)) % 256
      then some (c, m, p0)
      else none
  | _ => none

/-- `response.PM25`: panics (here `none`) on a reply frame; otherwise
the little-endian uint16 of payload bytes 0-1 divided by 10. -/
def response.PM25 (r : response) : Option ℚ :=
  if r.IsReply then none
  else some ((r.d0 + 256 * r.d1 : ℚ) / 10)

/-- `response.PM10`: panics (here `none`) on a reply frame; otherwise
the little-endian uint16 of payload bytes 2-3 divided by 10. -/
def response.PM10 (r : response) : Option ℚ :=
  if r.IsReply then none
  else some ((r.d2 + 256 * r.d3 : ℚ) / 10)

/-- `response.ID`: panics (here `none`) on a reply frame; otherwise the
little-endian uint16 of payload bytes 4-5. -/
def response.ID (r : response) : Option Nat :=
  if r.IsReply then none
  else some (r.d4 + 256 * r.d5)

/-- `response.checkMatches`: the guard used by the reply accessors. It
compares only payload byte 0 against the expected command id. -/
def response.checkMatches (r : response) (cmd : Nat) : Bool :=
  r.d0 == cmd

/-- Go's `%02d` format verb on a byte value. -/
def pad2 (n : Nat) : String :=
  if n < 10 then "0" ++ toString n else toString n

/-- `response.Firmware`: panics (`none`) unless payload byte 0 is the
firmware command id; otherwise bytes 1-3 formatted `%02d-%02d-%02d`. -/
def response.Firmware (r : response) : Option String :=
  if r.checkMatches commandFirmware then
    some (pad2 r.d1 ++ "-" ++ pad2 r.d2 ++ "-" ++ pad2 r.d3)
  else none

/-- `response.DeviceID`: panics (`none`) unless payload byte 0 is the
device-id command id; otherwise bytes 1-2 formatted `%02d%02d`. -/
def response.DeviceID (r : response) : Option String :=
  if r.checkMatches commandDeviceID then some (pad2 r.d1 ++ pad2 r.d2)
  else none

/-- `response.ReportMode`: panics (`none`) unless payload byte 0 is the
report-mode command id; otherwise payload byte 2. -/
def response.ReportMode (r : response) : Option Nat :=
  if r.checkMatches commandReportMode then some r.d2 else none

/-- `response.Cycle`: panics (`none`) unless payload byte 0 is the
cycle command id; otherwise payload byte 2. -/
def response.Cycle (r : response) : Option Nat :=
  if r.checkMatches commandCycle then some r.d2 else none

/-- `response.WorkState`: panics (`none`) unless payload byte 0 is the
work-state command id; otherwise payload byte 2. -/
def response.WorkState (r : response) : Option Nat :=
  if r.checkMatches commandWorkState then some r.d2 else none

/-- A measurement `Point` (timestamp omitted: wall-clock time is outside
the embedding). -/
structure Point where
  PM25 : ℚ
  PM10 : ℚ
  deriving Repr, DecidableEq

/-- The sensor's transport, made explicit: `written` is the log of bytes
written so far, `incoming` the queue of raw 10-byte frames the next
reads will return (an exhausted queue models a transport read error). -/
structure SensorState where
  written : List Nat
  incoming : List (List Nat)
  deriving Repr, DecidableEq

/-- `Sensor.send`: serialize `makeRequest` and write it to the wire. -/
def Sensor.send (s : SensorState) (cmd mod value : Nat) : SensorState :=
  { s with written := s.written ++ requestBytes (makeRequest cmd mod value) }

/-- `Sensor.receive` as a state transition: consume the next raw frame
and decode it with `receiveBytes`. -/
def Sensor.receive (s : SensorState) : Except RecvError response × SensorState :=
  match s.incoming with
  | [] => (Except.error RecvError.transport, s)
  | bs :: rest => (receiveBytes bs, { s with incoming := rest })

/-- Errors produced by `Sensor.receiveReply`. -/
inductive ReplyError where
  | recv : RecvError → ReplyError
  | noReply : ReplyError
  deriving Repr, DecidableEq

/-- `Sensor.receiveReply`: up to `fuel` (the source uses 10) receives;
a decode error returns immediately, the first reply frame is returned,
non-reply frames are skipped; exhausting the budget is a no-reply
error. -/
def Sensor.receiveReply (fuel : Nat) (s : SensorState) : Except ReplyError response × SensorState :=
  match fuel with
  | 0 => (Except.error ReplyError.noReply, s)
  | n + 1 =>
      match Sensor.receive s with
      | (Except.error e, s1) => (Except.error (ReplyError.recv e), s1)
      | (Except.ok r, s1) =>
          if r.IsReply then (Except.ok r, s1) else Sensor.receiveReply n s1

/-- Errors surfaced by the session operations. -/
inductive OpError where
  | invalidArgument : OpError
  | reply : ReplyError → OpError
  | contract : OpError
  deriving Repr, DecidableEq

/-- `Sensor.MakeActive`: send ReportMode/Set/active, await any reply.
The reply's payload is only logged, never inspected. -/
def Sensor.MakeActive (s : SensorState) : Except OpError Unit × SensorState :=
  match Sensor.receiveReply 10 (Sensor.send s commandReportMode modeSet reportModeActive) with
  | (Except.ok _, s2) => (Except.ok (), s2)
  | (Except.error e, s2) => (Except.error (OpError.reply e), s2)

/-- `Sensor.MakePassive`: send ReportMode/Set/query, await any reply. -/
def Sensor.MakePassive (s : SensorState) : Except OpError Unit × SensorState :=
  match Sensor.receiveReply 10 (Sensor.send s commandReportMode modeSet reportModeQuery) with
  | (Except.ok _, s2) => (Except.ok (), s2)
  | (Except.error e, s2) => (Except.error (OpError.reply e), s2)

/-- `Sensor.SetCycle`: values above 30 fail before any transport write
(the `value < 0` half of the Go guard is vacuous on uint8); otherwise
send Cycle/Set/value and await any reply. -/
def Sensor.SetCycle (s : SensorState) (value : Nat) : Except OpError Unit × SensorState :=
  if 30 < value then (Except.error OpError.invalidArgument, s)
  else
    match Sensor.receiveReply 10 (Sensor.send s commandCycle modeSet value) with
    | (Except.ok _, s2) => (Except.ok (), s2)
    | (Except.error e, s2) => (Except.error (OpError.reply e), s2)

/-- `Sensor.Awake`: send WorkState/Set/measuring, await any reply. -/
def Sensor.Awake (s : SensorState) : Except OpError Unit × SensorState :=
  match Sensor.receiveReply 10 (Sensor.send s commandWorkState modeSet workStateMeasuring) with
  | (Except.ok _, s2) => (Except.ok (), s2)
  | (Except.error e, s2) => (Except.error (OpError.reply e), s2)

/-- `Sensor.Sleep`: send WorkState/Set/sleeping, await any reply. -/
def Sensor.Sleep (s : SensorState) : Except OpError Unit × SensorState :=
  match Sensor.receiveReply 10 (Sensor.send s commandWorkState modeSet workStateSleeping) with
  | (Except.ok _, s2) => (Except.ok (), s2)
  | (Except.error e, s2) => (Except.error (OpError.reply e), s2)

/-- `Sensor.Get`: one bare `receive` (no reply matching), then the PM2.5
and PM10 accessors build the `Point`; an accessor panic (reply frame)
is the `none` outcome. -/
def Sensor.Get (s : SensorState) : Option (Except OpError Point × SensorState) :=
  match Sensor.receive s with
  | (Except.error e, s1) => some (Except.error (OpError.reply (ReplyError.recv e)), s1)
  | (Except.ok r, s1) =>
      match r.PM25, r.PM10 with
      | some p25, some p10 => some (Except.ok { PM25 := p25, PM10 := p10 }, s1)
      | _, _ => none

/-- `Sensor.Query`: send Query/Get/0 and then `Get` — the next raw frame
is read directly, with no reply-matching loop. -/
def Sensor.Query (s : SensorState) : Option (Except OpError Point × SensorState) :=
  Sensor.Get (Sensor.send s commandQuery modeGet 0)

/-! ## Theorems -/

/-- C1 (counterexample): the all-zero 10-byte frame has header 0 ≠ 0xAA
and tail 0 ≠ 0xAB, yet decoding succeeds and surfaces it as data,
because `Sensor.receive` validates only the checksum — refuting the
claim that decoding succeeds only if header is 0xAA and tail is 0xAB. -/
theorem receive_accepts_frame_with_bad_header_and_tail :
    receiveBytes [0, 0, 0, 0, 0, 0, 0, 0, 0, 0] =
      Except.ok ⟨0, 0, 0, 0, 0, 0, 0, 0, 0, 0⟩ ∧
    (0 : Nat) ≠ 170 ∧ (0 : Nat) ≠ 171 := by
  refine ⟨rfl, by decide, by decide⟩

/-- C1 (amended): for every 10-byte input, decoding succeeds iff the
mod-256 sum of the 6 payload bytes equals the checksum byte — the
header and tail bytes are never checked and there is no malformed-frame
error; a frame failing the checksum is rejected with a checksum error
and no rejected frame is surfaced as data. -/
theorem receiveBytes_ok_iff_checksum (h c d0 d1 d2 d3 d4 d5 ck t : Nat) :
    (receiveBytes [h, c, d0, d1, d2, d3, d4, d5, ck, t] =
        Except.ok ⟨h, c, d0, d1, d2, d3, d4, d5, ck, t⟩
      ↔ (d0 + d1 + d2 + d3 + d4 + d5) % 256 = ck) ∧
    (receiveBytes [h, c, d0, d1, d2, d3, d4, d5, ck, t] =
        Except.error RecvError.checksum
      ↔ (d0 + d1 + d2 + d3 + d4 + d5) % 256 ≠ ck) := by
  constructor <;>
    simp [receiveBytes, parseResponse, response.IsCorrect, response.dataSum] <;>
    split <;> simp_all

/-- C1 (witness for the amended theorem at a concrete frame). -/
theorem receiveBytes_ok_iff_checksum_at_concrete_frame :
    (receiveBytes [170, 192, 1, 2, 3, 0, 0, 0, 6, 171] =
        Except.ok ⟨170, 192, 1, 2, 3, 0, 0, 0, 6, 171⟩
      ↔ (1 + 2 + 3 + 0 + 0 + 0) % 256 = 6) ∧
    (receiveBytes [170, 192, 1, 2, 3, 0, 0, 0, 6, 171] =
        Except.error RecvError.checksum
      ↔ (1 + 2 + 3 + 0 + 0 + 0) % 256 ≠ 6) :=
  receiveBytes_ok_iff_checksum 170 192 1 2 3 0 0 0 6 171

/-- C3: for every command, mode and value byte, the encoded request is
exactly the 19 bytes: header 0xAA, marker 0xB4, command, mode, value in
payload byte 0 with ten zero bytes after it, device id 0xFF 0xFF, the
mod-256 checksum over command + mode + payload + device id, tail 0xAB. -/
theorem requestBytes_makeRequest_layout (cmd mod value : Nat) :
    requestBytes (makeRequest cmd mod value) =
      [170, 180, cmd, mod, value, 0, 0, 0, 0, 0, 0, 0, 0, 0, 0, 255, 255,
        (cmd + mod + (value + 0 + 0 + 0 + 0 + 0 + 0 + 0 + 0 + 0 + 0) + (255 + 255)) % 256,
        171] ∧
    (requestBytes (makeRequest cmd mod value)).length = 19 := by
  constructor
  · simp [requestBytes, makeRequest]
  · simp [requestBytes, makeRequest]

/-- C4: decoding the 19 bytes produced by encoding a request recovers
the same command, mode and value, and the embedded checksum byte
re-validates against the decoded fields (the decoder checks it). -/
theorem decode_encode_request_roundtrip (cmd mod value : Nat) :
    decodeRequestBytes (requestBytes (makeRequest cmd mod value)) =
      some (cmd, mod, value) := by
  simp [decodeRequestBytes, requestBytes, makeRequest]

/-- C8 (counterexample): a stream frame (discriminator 0xC0, not a
reply) whose payload byte 0 happens to equal the firmware command id is
not rejected by the firmware accessor — it returns data instead of
panicking, because `checkMatches` never consults the discriminator,
refuting the claim that the accessor panics on every non-reply frame. -/
theorem firmware_accessor_accepts_stream_frame :
    response.IsReply ⟨170, 192, 7, 17, 3, 20, 0, 0, 47, 171⟩ = false ∧
    response.Firmware ⟨170, 192, 7, 17, 3, 20, 0, 0, 47, 171⟩ = some "17-03-20" := by
  exact ⟨rfl, rfl⟩

/-- C8 (amended): the PM2.5, PM10 and ID accessors panic exactly on
reply frames; the firmware, device-id, report-mode, cycle and
work-state accessors panic exactly when payload byte 0 differs from the
expected command id — they never check that the frame is a reply. -/
theorem accessor_panic_conditions (r : response) :
    (r.PM25 = none ↔ r.IsReply = true) ∧
    (r.PM10 = none ↔ r.IsReply = true) ∧
    (r.ID = none ↔ r.IsReply = true) ∧
    (r.Firmware = none ↔ r.d0 ≠ commandFirmware) ∧
    (r.DeviceID = none ↔ r.d0 ≠ commandDeviceID) ∧
    (r.ReportMode = none ↔ r.d0 ≠ commandReportMode) ∧
    (r.Cycle = none ↔ r.d0 ≠ commandCycle) ∧
    (r.WorkState = none ↔ r.d0 ≠ commandWorkState) := by
  refine ⟨?_, ?_, ?_, ?_, ?_, ?_, ?_, ?_⟩ <;>
    simp [response.PM25, response.PM10, response.ID, response.Firmware,
      response.DeviceID, response.ReportMode, response.Cycle,
      response.WorkState, response.checkMatches] <;>
    split <;> simp_all

/-- C9: every response whose payload bytes 0-3 are [7, 17, 3, 20]
(firmware command id, then year, month, day) yields the firmware string
"17-03-20" from the accessor. -/
theorem firmware_string_rendering (r : response) (h0 : r.d0 = commandFirmware)
    (h1 : r.d1 = 17) (h2 : r.d2 = 3) (h3 : r.d3 = 20) :
    r.Firmware = some "17-03-20" := by
  simp [response.Firmware, response.checkMatches, h0, h1, h2, h3, pad2]
  rfl

/-- C9 (witness at a concrete reply frame). -/
theorem firmware_string_rendering_at_concrete_frame :
    response.Firmware ⟨170, 197, 7, 17, 3, 20, 0, 0, 47, 171⟩ = some "17-03-20" :=
  firmware_string_rendering ⟨170, 197, 7, 17, 3, 20, 0, 0, 47, 171⟩ rfl rfl rfl rfl

/-- Helper: a run of frames that decode to non-reply responses is
skipped by the matcher, consuming one unit of fuel per frame. -/
lemma receiveReply_skips_nonreplies (ns : List (List Nat)) :
    ∀ (fuel : Nat) (w : List Nat) (rest : List (List Nat)),
      ns.length ≤ fuel →
      (∀ bs ∈ ns, ∃ q : response, receiveBytes bs = Except.ok q ∧ q.IsReply = false) →
      Sensor.receiveReply fuel ⟨w, ns ++ rest⟩ =
        Sensor.receiveReply (fuel - ns.length) ⟨w, rest⟩ := by
  induction ns with
  | nil => intro fuel w rest _ _; simp
  | cons b bs ih =>
      intro fuel w rest hlen hns
      obtain ⟨q, hq, hnr⟩ := hns b (by simp)
      cases fuel with
      | zero => simp at hlen
      | succ n =>
          have hrec : Sensor.receiveReply (n + 1) ⟨w, (b :: bs) ++ rest⟩ =
              Sensor.receiveReply n ⟨w, bs ++ rest⟩ := by
            simp [Sensor.receiveReply, Sensor.receive, hq, hnr]
          have hlen2 : bs.length ≤ n := by
            simp only [List.length_cons] at hlen
            omega
          rw [hrec, ih n w rest hlen2 (fun x hx => hns x (by simp [hx]))]
          congr 1
          simp only [List.length_cons]
          omega

/-- Helper: the matcher never touches the write log. -/
lemma receiveReply_written (fuel : Nat) :
    ∀ s : SensorState, (Sensor.receiveReply fuel s).2.written = s.written := by
  induction fuel with
  | zero => intro s; rfl
  | succ n ih =>
      intro s
      rcases s with ⟨w, inc⟩
      cases inc with
      | nil => rfl
      | cons bs rest =>
          simp only [Sensor.receiveReply, Sensor.receive]
          rcases hd : receiveBytes bs with e | r
          · rfl
          · by_cases hr : r.IsReply
            · simp [hr]
            · simpa [hr] using ih ⟨w, rest⟩

/-- C2: on a stream of successfully decoded frames, fewer than 10
non-replies followed by a reply make the matcher return that reply,
leaving exactly the frames after it unread; and any 10 consecutive
decoded non-replies make it fail with the no-reply error. -/
theorem receiveReply_returns_first_reply (w : List Nat) (ns rest : List (List Nat))
    (reply : List Nat) (r : response)
    (hlen : ns.length < 10)
    (hns : ∀ bs ∈ ns, ∃ q : response, receiveBytes bs = Except.ok q ∧ q.IsReply = false)
    (hr : receiveBytes reply = Except.ok r) (hrep : r.IsReply = true) :
    Sensor.receiveReply 10 ⟨w, ns ++ reply :: rest⟩ = (Except.ok r, ⟨w, rest⟩) ∧
    (∀ ms rest2 : List (List Nat), ms.length = 10 →
      (∀ bs ∈ ms, ∃ q : response, receiveBytes bs = Except.ok q ∧ q.IsReply = false) →
      (Sensor.receiveReply 10 ⟨w, ms ++ rest2⟩).1 = Except.error ReplyError.noReply) := by
  constructor
  · rw [receiveReply_skips_nonreplies ns 10 w (reply :: rest) (by omega) hns]
    match h10 : 10 - ns.length, (by omega : 0 < 10 - ns.length) with
    | k + 1, _ =>
        simp [Sensor.receiveReply, Sensor.receive, hr, hrep]
  · intro ms rest2 hm hms
    rw [receiveReply_skips_nonreplies ms 10 w rest2 (by omega) hms, hm]
    rfl

/-- C2 (witness): one stream frame then one reply frame; the reply is
returned and nothing past it is read. -/
theorem receiveReply_returns_first_reply_at_concrete_stream :
    Sensor.receiveReply 10
        ⟨[], [[170, 192, 0, 0, 0, 0, 0, 0, 0, 171], [170, 197, 2, 0, 1, 0, 0, 0, 3, 171]]⟩ =
      (Except.ok ⟨170, 197, 2, 0, 1, 0, 0, 0, 3, 171⟩, ⟨[], []⟩) :=
  (receiveReply_returns_first_reply [] [[170, 192, 0, 0, 0, 0, 0, 0, 0, 171]] []
    [170, 197, 2, 0, 1, 0, 0, 0, 3, 171] ⟨170, 197, 2, 0, 1, 0, 0, 0, 3, 171⟩
    (by decide)
    (by
      intro bs hbs
      simp only [List.mem_singleton] at hbs
      subst hbs
      exact ⟨⟨170, 192, 0, 0, 0, 0, 0, 0, 0, 171⟩, rfl, rfl⟩)
    rfl rfl).1

/-- C5: if the k-th decode attempt (k ≤ 10, every earlier attempt a
decoded non-reply) fails with a checksum or transport error, the
matcher returns that same error immediately, reading nothing further —
the error is neither retried nor turned into a no-reply result. -/
theorem receiveReply_propagates_decode_error (w : List Nat) (ns rest : List (List Nat))
    (bad : List Nat) (e : RecvError)
    (hlen : ns.length < 10)
    (hns : ∀ bs ∈ ns, ∃ q : response, receiveBytes bs = Except.ok q ∧ q.IsReply = false)
    (hbad : receiveBytes bad = Except.error e) :
    Sensor.receiveReply 10 ⟨w, ns ++ bad :: rest⟩ =
      (Except.error (ReplyError.recv e), ⟨w, rest⟩) := by
  rw [receiveReply_skips_nonreplies ns 10 w (bad :: rest) (by omega) hns]
  match h10 : 10 - ns.length, (by omega : 0 < 10 - ns.length) with
  | k + 1, _ =>
      simp [Sensor.receiveReply, Sensor.receive, hbad]

/-- C5 (witness): a corrupt-checksum frame as the first attempt aborts
the wait with the checksum error and leaves the rest unread. -/
theorem receiveReply_propagates_decode_error_at_concrete_stream :
    Sensor.receiveReply 10
        ⟨[], [[170, 192, 1, 0, 0, 0, 0, 0, 99, 171], [170, 197, 2, 0, 1, 0, 0, 0, 3, 171]]⟩ =
      (Except.error (ReplyError.recv RecvError.checksum),
        ⟨[], [[170, 197, 2, 0, 1, 0, 0, 0, 3, 171]]⟩) :=
  receiveReply_propagates_decode_error [] [] [[170, 197, 2, 0, 1, 0, 0, 0, 3, 171]]
    [170, 192, 1, 0, 0, 0, 0, 0, 99, 171] RecvError.checksum
    (by decide) (by intro bs hbs; simp at hbs) rfl

/-- C6: over the whole uint8 domain, an out-of-range duty-cycle value
(31..255, which includes the uint8 image of -1) makes SetCycle fail
with the invalid-argument error leaving the transport untouched, while
an in-range value (0..30) writes the encoded Cycle/Set request. -/
theorem setCycle_range_check (s : SensorState) (value : Nat) (hv : value < 256) :
    (30 < value →
      Sensor.SetCycle s value = (Except.error OpError.invalidArgument, s)) ∧
    (value ≤ 30 →
      (Sensor.SetCycle s value).2.written =
        s.written ++ requestBytes (makeRequest commandCycle modeSet value)) := by
  constructor
  · intro h30
    simp [Sensor.SetCycle, h30]
  · intro h30
    have hnot : ¬ 30 < value := by omega
    simp only [Sensor.SetCycle, if_neg hnot]
    have hw := receiveReply_written 10 (Sensor.send s commandCycle modeSet value)
    rcases hrr : Sensor.receiveReply 10 (Sensor.send s commandCycle modeSet value) with ⟨res, s2⟩
    rw [hrr] at hw
    cases res <;> simpa [Sensor.send] using hw

/-- C6 (witness): value 31 is rejected with no write; value 0 writes
the encoded request. -/
theorem setCycle_range_check_at_31_and_0 :
    Sensor.SetCycle ⟨[], []⟩ 31 = (Except.error OpError.invalidArgument, ⟨[], []⟩) ∧
    (Sensor.SetCycle ⟨[], []⟩ 0).2.written =
      requestBytes (makeRequest commandCycle modeSet 0) :=
  ⟨(setCycle_range_check ⟨[], []⟩ 31 (by decide)).1 (by decide),
   by simpa using (setCycle_range_check ⟨[], []⟩ 0 (by decide)).2 (by decide)⟩

/-- C7 (counterexample): feeding Query a checksum-valid non-reply frame
whose payload encodes PM2.5 raw 340 and PM10 raw 380 (little-endian)
yields the Point (34, 38), not (3.4, 3.8) as the claim states: the code
divides the raw value by 10, and 340 / 10 = 34 ≠ 3.4. -/
theorem query_at_raw_340_380_gives_34_38 :
    Sensor.Query ⟨[], [[170, 192, 84, 1, 124, 1, 0, 0, 210, 171]]⟩ =
      some (Except.ok { PM25 := 34, PM10 := 38 },
        ⟨requestBytes (makeRequest commandQuery modeGet 0), []⟩) ∧
    (34 : ℚ) ≠ 17 / 5 := by
  constructor
  · simp [Sensor.Query, Sensor.Get, Sensor.send, Sensor.receive, receiveBytes,
      parseResponse, response.IsCorrect, response.dataSum, response.IsReply,
      response.PM25, response.PM10]
    norm_num
  · norm_num

/-- C7 (amended): Query sends the Query request and then reads the next
raw frame directly — a non-reply frame is returned as data with no
reply-matching loop — and a checksum-valid non-reply frame with PM2.5
raw 340 and PM10 raw 380 yields the Point (34.0, 38.0), each raw
little-endian value divided by 10. -/
theorem query_reads_next_frame_directly (w : List Nat) (rest : List (List Nat))
    (c d4 d5 t : Nat) (hc : c ≠ 197) :
    Sensor.Query ⟨w, ([170, c, 84, 1, 124, 1, d4, d5, (210 + d4 + d5) % 256, t]) :: rest⟩ =
      some (Except.ok { PM25 := 34, PM10 := 38 },
        ⟨w ++ requestBytes (makeRequest commandQuery modeGet 0), rest⟩) := by
  have hsum : (84 + 1 + 124 + 1 + d4 + d5) % 256 = (210 + d4 + d5) % 256 := by
    omega
  have hrep : (response.IsReply ⟨170, c, 84, 1, 124, 1, d4, d5, (210 + d4 + d5) % 256, t⟩) = false := by
    simp [response.IsReply, hc]
  simp [Sensor.Query, Sensor.Get, Sensor.send, Sensor.receive, receiveBytes,
    parseResponse, response.IsCorrect, response.dataSum, hsum, hrep,
    response.PM25, response.PM10]
  norm_num

/-- C7 (witness at a concrete stream frame). -/
theorem query_reads_next_frame_directly_at_concrete_frame :
    Sensor.Query ⟨[], [[170, 192, 84, 1, 124, 1, 0, 0, 210, 171]]⟩ =
      some (Except.ok { PM25 := 34, PM10 := 38 },
        ⟨requestBytes (makeRequest commandQuery modeGet 0), []⟩) := by
  have h := query_reads_next_frame_directly [] [] 192 0 0 171 (by decide)
  simpa using h

/-- C10: every set-type operation (MakeActive, MakePassive, in-range
SetCycle, Awake, Sleep) returns success on receipt of any
checksum-valid frame with discriminator 0xC5, whatever command id the
reply echoes in payload byte 0 — the echoed command is never checked. -/
theorem set_ops_accept_any_reply (w : List Nat) (rest : List (List Nat))
    (h t d0 d1 d2 d3 d4 d5 v : Nat) (hv : v ≤ 30) :
    ((Sensor.MakeActive
        ⟨w, [h, 197, d0, d1, d2, d3, d4, d5, (d0 + d1 + d2 + d3 + d4 + d5) % 256, t] :: rest⟩).1 =
      Except.ok ()) ∧
    ((Sensor.MakePassive
        ⟨w, [h, 197, d0, d1, d2, d3, d4, d5, (d0 + d1 + d2 + d3 + d4 + d5) % 256, t] :: rest⟩).1 =
      Except.ok ()) ∧
    ((Sensor.SetCycle
        ⟨w, [h, 197, d0, d1, d2, d3, d4, d5, (d0 + d1 + d2 + d3 + d4 + d5) % 256, t] :: rest⟩ v).1 =
      Except.ok ()) ∧
    ((Sensor.Awake
        ⟨w, [h, 197, d0, d1, d2, d3, d4, d5, (d0 + d1 + d2 + d3 + d4 + d5) % 256, t] :: rest⟩).1 =
      Except.ok ()) ∧
    ((Sensor.Sleep
        ⟨w, [h, 197, d0, d1, d2, d3, d4, d5, (d0 + d1 + d2 + d3 + d4 + d5) % 256, t] :: rest⟩).1 =
      Except.ok ()) := by
  have hnot : ¬ 30 < v := by omega
  refine ⟨?_, ?_, ?_, ?_, ?_⟩ <;>
    simp [Sensor.MakeActive, Sensor.MakePassive, Sensor.SetCycle, Sensor.Awake,
      Sensor.Sleep, Sensor.send, Sensor.receiveReply, Sensor.receive, receiveBytes,
      parseResponse, response.IsCorrect, response.dataSum, response.IsReply, hnot]

/-- C10 (witness): a reply echoing the DeviceID command id (5) confirms
all five set-type operations, none of which sent that command. -/
theorem set_ops_accept_any_reply_at_concrete_frame :
    ((Sensor.MakeActive ⟨[], [[170, 197, 5, 0, 0, 0, 0, 0, 5, 171]]⟩).1 = Except.ok ()) ∧
    ((Sensor.MakePassive ⟨[], [[170, 197, 5, 0, 0, 0, 0, 0, 5, 171]]⟩).1 = Except.ok ()) ∧
    ((Sensor.SetCycle ⟨[], [[170, 197, 5, 0, 0, 0, 0, 0, 5, 171]]⟩ 0).1 = Except.ok ()) ∧
    ((Sensor.Awake ⟨[], [[170, 197, 5, 0, 0, 0, 0, 0, 5, 171]]⟩).1 = Except.ok ()) ∧
    ((Sensor.Sleep ⟨[], [[170, 197, 5, 0, 0, 0, 0, 0, 5, 171]]⟩).1 = Except.ok ()) := by
  have h := set_ops_accept_any_reply [] [] 170 171 5 0 0 0 0 0 0 (by decide)
  simpa using h

end SDS011
